import Mathlib

/-!
Shallow embedding of the `viva-engineering/database` supervisory layer.

The TypeScript sources model a dual-pool (master/replica) MySQL client:
per-connection metadata kept in module-level `WeakMap`s (`mysql.ts`),
a transaction lifecycle and pool facade (`pool.ts` / `DatabasePool`),
and two generations of query execution with retry/backoff
(`index.ts` `runQuery` and `query.ts` `onError`).

Connections are modelled by their identity (a `Nat`); the `WeakMap`s become
total functions `Nat → Option _`; promise settlement becomes explicit
`Except`/`Option` results; driver responses (which arrive via callbacks)
become explicit oracle parameters; observable side effects (log calls,
statements handed to the driver, scheduled retries, destroyed connections,
cleared timers) are collected into explicit effect traces.
-/

namespace VivaDB

/-- A driver error as surfaced by the `mysql` package: an error code, the
connection-level `fatal` flag, and the server message. -/
structure MysqlError where
  code : String
  fatal : Bool
  sqlMessage : String
deriving DecidableEq, Repr

/-- The role of a pool / connection (`type Role = 'master' | 'replica'`). -/
inductive Role
  | master
  | replica
deriving DecidableEq, Repr

/-- `const enum TransactionType { ReadOnly = 'read only', ReadWrite = 'read write' }` -/
inductive TransactionType
  | readOnly
  | readWrite
deriving DecidableEq, Repr

/-- Logger levels used by the sources (`@viva-eng/logger`). -/
inductive LogLevel
  | silly
  | debug
  | verbose
  | warn
  | error
deriving DecidableEq, Repr

/-- Observable side effects of the embedded operations. -/
inductive Effect
  /-- a call `logger.<level>(message, context)` -/
  | logged (level : LogLevel) (message : String)
  /-- a statement handed to the driver: `connection.query(sql, cb)` -/
  | statementIssued (conn : Nat) (sql : String)
  /-- `connection.destroy()` — the connection is hard-closed, not pooled -/
  | connectionDestroyed (conn : Nat)
  /-- `connection.release()` — the connection is returned to its pool -/
  | returnedToPool (conn : Nat)
  /-- `clearTimeout(timer)` on the checkout timer -/
  | timerCleared (conn : Nat)
  /-- a thrown JS `TypeError` (a method call on `undefined`) -/
  | jsTypeError (message : String)
deriving DecidableEq, Repr

/-- The number of error-level log calls in a trace. -/
def errorLogCount (effects : List Effect) : Nat :=
  (effects.filter fun e =>
    match e with
    | .logged .error _ => true
    | _ => false).length

/-- The statements handed to the driver in a trace, in order. -/
def statementsIssued (effects : List Effect) : List (Nat × String) :=
  effects.filterMap fun e =>
    match e with
    | .statementIssued c sql => some (c, sql)
    | _ => none

/-- The module-level `WeakMap`s of `mysql.ts`:
`holdTimers`, `connectionRoles`, `connectionPools`, `transactions`,
keyed by connection identity. Timer handles and pool identities are opaque
and modelled as `Nat`. -/
structure MysqlState where
  connectionRoles : Nat → Option Role
  connectionPools : Nat → Option Nat
  transactions : Nat → Option TransactionType
  holdTimers : Nat → Option Nat

/-- Pointwise update of a modelled `WeakMap` (`set` / `delete`). -/
def updateMap {α : Type} (m : Nat → Option α) (k : Nat) (v : Option α) : Nat → Option α :=
  fun q => if q = k then v else m q

/-- The state before any connection has been seen: all four maps are empty. -/
def initialState : MysqlState :=
  { connectionRoles := fun _ => none
    connectionPools := fun _ => none
    transactions := fun _ => none
    holdTimers := fun _ => none }

/-- `getConnectionRole(connection)` — `connectionRoles.get(connection)`. -/
def getConnectionRole (c : Nat) (s : MysqlState) : Option Role :=
  s.connectionRoles c

/-- `setTransactionType(connection, type)` — `transactions.set(connection, type)`. -/
def setTransactionType (c : Nat) (t : TransactionType) (s : MysqlState) : MysqlState :=
  { s with transactions := updateMap s.transactions c (some t) }

/-- `getTransactionType(connection)` — `transactions.get(connection)`. -/
def getTransactionType (c : Nat) (s : MysqlState) : Option TransactionType :=
  s.transactions c

/-- `clearTransactionType(connection)` — `transactions.delete(connection)`. -/
def clearTransactionType (c : Nat) (s : MysqlState) : MysqlState :=
  { s with transactions := updateMap s.transactions c none }

/-- The `pool.on('connection', ...)` handler `onConnection(role, logger, dbPool)`:
records the role and the owning `DatabasePool` for the new connection and logs
at `silly` level. (The per-connection `'error'` listener it installs is not
needed by any claim and is not modelled here.) -/
def onConnection (c : Nat) (role : Role) (poolId : Nat) (s : MysqlState) :
    MysqlState × List Effect :=
  ({ s with
      connectionRoles := updateMap s.connectionRoles c (some role)
      connectionPools := updateMap s.connectionPools c (some poolId) },
   [Effect.logged .silly "New MySQL connection established"])

/-- The `pool.on('acquire', ...)` handler `onAcquire(logger)`:
arms the one-minute checkout timer for the connection. -/
def onAcquire (c : Nat) (timerId : Nat) (s : MysqlState) : MysqlState :=
  { s with holdTimers := updateMap s.holdTimers c (some timerId) }

/-- The synchronous prefix of `DatabasePool.rollbackTransaction`: everything that
runs before control returns to the caller (the `Promise` executor runs
synchronously, so the `rollback` statement is handed to the driver — or the
no-transaction rejection logged — before the call returns). The driver
callback, which may clear the transaction entry, runs later. -/
def rollbackStatementSync (c : Nat) (s : MysqlState) : List Effect :=
  match s.transactions c with
  | none => [Effect.logged .error "Attempted to rollback a transaction when none was running"]
  | some _ =>
      [Effect.logged .debug "Rolling back MySQL transaction",
       Effect.statementIssued c "rollback"]

/-- The result of a release-event handler run. `crashed` records a JS
`TypeError` escaping the handler (method call on an `undefined` pool). -/
structure ReleaseResult where
  state : MysqlState
  effects : List Effect
  crashed : Bool

/-- The tail of `onRelease` shared by all non-crashing paths: the `silly`
"connection released" log, then checkout-timer cleanup (`clearTimeout` and
`holdTimers.delete` when a timer is armed). -/
def finishRelease (c : Nat) (s : MysqlState) (pre : List Effect) : ReleaseResult :=
  match s.holdTimers c with
  | some _ =>
      { state := { s with holdTimers := updateMap s.holdTimers c none }
        effects := pre ++ [Effect.logged .silly "MySQL connection released", Effect.timerCleared c]
        crashed := false }
  | none =>
      { state := s
        effects := pre ++ [Effect.logged .silly "MySQL connection released"]
        crashed := false }

/-- The `pool.on('release', ...)` handler `onRelease(logger)` of `mysql.ts`:
if the connection still has an open transaction it logs an error-level
diagnostic and fires `pool.rollbackTransaction(connection)` (not awaited, so
only its synchronous prefix happens here; if the owning pool was never
recorded, that call is a method on `undefined` and throws). It then logs the
release and clears the checkout timer. Note that the handler deletes only the
`holdTimers` entry: `connectionRoles`, `connectionPools` and `transactions`
entries are not removed on this path. -/
def onRelease (c : Nat) (s : MysqlState) : ReleaseResult :=
  match s.transactions c with
  | some _ =>
      let head := [Effect.logged .error
        "A connection was released that still had an open transaction; Forcing rollback"]
      match s.connectionPools c with
      | none =>
          { state := s
            effects := head ++ [Effect.jsTypeError "Cannot read property of undefined"]
            crashed := true }
      | some _ => finishRelease c s (head ++ rollbackStatementSync c s)
  | none => finishRelease c s []

/-! ## Transaction manager (`pool.ts`, `DatabasePool` methods)

Driver responses arrive through callbacks; they are modelled as explicit
oracle arguments (`Option MysqlError`, with `none` meaning the statement
succeeded). -/

/-- Rejection values of the transaction methods: either the synthetic
`new Error('Cannot commit/rollback transaction; none is running')`, or the
driver error passed through. -/
inductive TxnError
  | noOpenTransaction (message : String)
  | driver (e : MysqlError)
deriving DecidableEq, Repr

/-- Result of a transaction-method call: the registry state after the call
and its driver callback have run, the effect trace, and the settlement. -/
structure TxnResult where
  state : MysqlState
  effects : List Effect
  outcome : Except TxnError Unit

/-- `DatabasePool.commitTransaction(connection)`: if no transaction type is
recorded, log an error and reject without touching the driver. Otherwise log,
issue `commit`; on driver success clear the transaction entry and resolve, on
driver failure log a warning and reject, leaving the entry in place. -/
def commitTransaction (c : Nat) (s : MysqlState) (stmtResult : Option MysqlError) : TxnResult :=
  match getTransactionType c s with
  | none =>
      { state := s
        effects := [Effect.logged .error "Attempted to commit a transaction when none was running"]
        outcome := .error (.noOpenTransaction "Cannot commit transaction; none is running") }
  | some _ =>
      match stmtResult with
      | some e =>
          { state := s
            effects := [Effect.logged .debug "Commiting MySQL transaction",
                        Effect.statementIssued c "commit",
                        Effect.logged .warn "Failed to commit transaction"]
            outcome := .error (.driver e) }
      | none =>
          { state := clearTransactionType c s
            effects := [Effect.logged .debug "Commiting MySQL transaction",
                        Effect.statementIssued c "commit",
                        Effect.logged .debug "Commit successful"]
            outcome := .ok () }

/-- `DatabasePool.rollbackTransaction(connection)`: symmetric to
`commitTransaction`, issuing `rollback`. Its synchronous prefix is
`rollbackStatementSync`; this definition also runs the driver callback. -/
def rollbackTransaction (c : Nat) (s : MysqlState) (stmtResult : Option MysqlError) : TxnResult :=
  match getTransactionType c s with
  | none =>
      { state := s
        effects := rollbackStatementSync c s
        outcome := .error (.noOpenTransaction "Cannot rollback transaction; none is running") }
  | some _ =>
      match stmtResult with
      | some e =>
          { state := s
            effects := rollbackStatementSync c s ++ [Effect.logged .warn "Failed to rollback transaction"]
            outcome := .error (.driver e) }
      | none =>
          { state := clearTransactionType c s
            effects := rollbackStatementSync c s ++ [Effect.logged .debug "Rollback successful"]
            outcome := .ok () }

/-- The SQL text issued by `startTransaction` for each transaction type. -/
def startTransactionSql : TransactionType → String
  | .readOnly => "start transaction read only"
  | .readWrite => "start transaction read write"

/-- Result of `startTransaction`: registry state, effects, and either the
acquired connection (resolve) or a driver error (reject). -/
structure StartTxnResult where
  state : MysqlState
  effects : List Effect
  outcome : Except MysqlError Nat

/-- `DatabasePool.startTransaction(transactionType)`: acquires a connection
from the read pool (`ReadOnly`) or write pool (`ReadWrite`) — modelled by the
`acquired` oracle — then calls `setTransactionType(connection, transactionType)`
BEFORE issuing the `start transaction ...` statement. On driver failure it
logs an error and rejects; nothing on that path removes the transaction entry
that was just set. -/
def startTransaction (t : TransactionType) (acquired : Except MysqlError Nat)
    (stmtResult : Option MysqlError) (s : MysqlState) : StartTxnResult :=
  match acquired with
  | .error e => { state := s, effects := [], outcome := .error e }
  | .ok c =>
      let s2 := setTransactionType c t s
      let pre := [Effect.logged .debug "Starting new MySQL transaction",
                  Effect.statementIssued c (startTransactionSql t)]
      match stmtResult with
      | some e =>
          { state := s2
            effects := pre ++ [Effect.logged .error "Failed to start MySQL transaction"]
            outcome := .error e }
      | none => { state := s2, effects := pre, outcome := .ok c }

/-! ## Query retry machinery

Two generations exist in the sources: `runQuery` in `index.ts` (self-recursion
with a hidden `retries` parameter, budget hardcoded to 3) and `onError` in
`query.ts` (driven by the query descriptor's `maxRetries`). -/

/-- The query descriptor of `query.ts` (`Query<P, R>`), restricted to the
fields the retry logic consults. -/
structure QueryDesc where
  description : String
  maxRetries : Nat
  isRetryable : MysqlError → Bool

/-- A retry scheduled by `query.ts`'s `onError` via `setTimeout`:
the computed backoff (in ms, as a JS number — `none` models `NaN`, which
arises when the `retries` argument is `undefined`; `setTimeout` treats a
`NaN` delay as `0`), and the `retries` value passed to the recursive
`query.execute(params, connection, logger, retries)` call. -/
structure RetryCall where
  backoff : Option Int
  retriesArg : Option Nat
deriving DecidableEq, Repr

/-- Result of one run of `query.ts`'s `onError`: the registry state, the
effect trace, the rejection handed to the promise (if any), and the retry
call scheduled via `setTimeout` (if any). -/
structure OnErrorResult where
  state : MysqlState
  effects : List Effect
  rejectedWith : Option MysqlError
  retryScheduled : Option RetryCall

/-- `onError(error, startTime, query, params, logger, connection, retries)`
from `query.ts`, transcribed branch by branch:
* `error.fatal` — warn, run the release cleanup handler, destroy the
  connection, reject;
* `query.isRetryable(error)` — compute
  `remainingRetries = retries == null ? query.maxRetries : retries`, warn,
  and if `remainingRetries` is non-zero schedule
  `query.execute(params, connection, logger, retries)` after
  `(query.maxRetries - retries) ** 2 * 500` ms; then fall through to
  `return reject(error)` in every case (the reject is NOT guarded by the
  schedule, and the scheduled call receives `retries` un-decremented);
* otherwise — warn and reject. -/
def onError (q : QueryDesc) (e : MysqlError) (retries : Option Nat) (c : Nat)
    (s : MysqlState) : OnErrorResult :=
  if e.fatal then
    let rel := onRelease c s
    { state := rel.state
      effects := [Effect.logged .warn "MySQL Query Error"] ++ rel.effects
                  ++ [Effect.connectionDestroyed c]
      rejectedWith := some e
      retryScheduled := none }
  else if q.isRetryable e then
    let remainingRetries := retries.getD q.maxRetries
    let sched :=
      if remainingRetries ≠ 0 then
        some { backoff := retries.map fun r => ((q.maxRetries : Int) - (r : Int)) ^ 2 * 500
               retriesArg := retries : RetryCall }
      else none
    { state := s
      effects := [Effect.logged .warn "MySQL Query Error"]
      rejectedWith := some e
      retryScheduled := sched }
  else
    { state := s
      effects := [Effect.logged .warn "MySQL Query Error"]
      rejectedWith := some e
      retryScheduled := none }

/-- The backoff computed by `retry(retries)` inside `index.ts`'s `runQuery`:
`(4 - retries) ** 2 * 500`, where `retries` is the remaining-retries value of
the failing invocation. -/
def runQueryBackoff (retries : Nat) : Int :=
  ((4 : Int) - (retries : Int)) ^ 2 * 500

/-- Aggregate outcome of a full `index.ts` `runQuery` retry chain:
how many times the statement was submitted to the connection, the backoff
delays slept between submissions, the final settlement (`none` = resolved,
`some e` = rejected with `e`), and whether the connection was destroyed. -/
structure RunResult where
  submissions : Nat
  delays : List Int
  outcome : Option MysqlError
  destroyed : Bool
deriving DecidableEq, Repr

/-- The retry chain of `index.ts`'s `runQuery`, indexed by the
remaining-retries value `r` (`retries == null ? 3 : retries` of the current
invocation). `outcomes k` is the driver's response to the `k`-th submission
(`none` = success). Branches, in source order: fatal → cleanup + destroy +
reject; retryable with `r ≠ 0` → sleep `(4 - r) ** 2 * 500` ms and recurse
with `retries - 1`; retryable with `r = 0` → reject; otherwise → reject.
The query descriptor's `maxRetries` is never consulted on this path. -/
def runQueryGo (isRetryable : MysqlError → Bool) (outcomes : Nat → Option MysqlError)
    (idx : Nat) (r : Nat) : RunResult :=
    match outcomes idx with
    | none => { submissions := 1, delays := [], outcome := none, destroyed := false }
    | some e =>
      if e.fatal then
        { submissions := 1, delays := [], outcome := some e, destroyed := true }
      else if isRetryable e then
        match r with
        | 0 => { submissions := 1, delays := [], outcome := some e, destroyed := false }
        | Nat.succ p =>
            let rest := runQueryGo isRetryable outcomes (idx + 1) p
            { submissions := rest.submissions + 1
              delays := runQueryBackoff (Nat.succ p) :: rest.delays
              outcome := rest.outcome
              destroyed := rest.destroyed }
      else { submissions := 1, delays := [], outcome := some e, destroyed := false }
termination_by r

/-- `index.ts`'s `runQuery(connection, query, params, retries)` as a whole
chain: the initial hidden `retries` parameter defaults to 3
(`retries == null ? 3 : retries`). -/
def runQuery (isRetryable : MysqlError → Bool) (outcomes : Nat → Option MysqlError)
    (retries : Option Nat) : RunResult :=
  runQueryGo isRetryable outcomes 0 (retries.getD 3)

/-! ## Cluster configuration and public URLs (`DatabasePool` constructor) -/

/-- The configuration fields of one pool that the constructor reads when
building the public URLs. -/
structure PoolConfig where
  host : String
  port : Nat
  database : String
deriving DecidableEq, Repr

/-- `ClusterConfig`: one configuration per role. -/
structure ClusterConfig where
  master : PoolConfig
  replica : PoolConfig
deriving DecidableEq, Repr

/-- `this.masterUrl = mysql://{config.master.host}:{config.master.port}/{config.master.database}` -/
def masterUrl (cfg : ClusterConfig) : String :=
  "mysql://" ++ cfg.master.host ++ ":" ++ toString cfg.master.port ++ "/" ++ cfg.master.database

/-- `this.replicaUrl` as the constructor actually builds it: the template on
that line also reads `config.master` (host, port and database), not
`config.replica`. -/
def replicaUrl (cfg : ClusterConfig) : String :=
  "mysql://" ++ cfg.master.host ++ ":" ++ toString cfg.master.port ++ "/" ++ cfg.master.database

/-! ## Healthcheck (`mysql.ts` `healthcheck`/`testPool`, `DatabasePool.healthcheck`) -/

/-- The timings resolved by `testPool`. Durations are `process.hrtime` pairs
`(seconds, nanoseconds)`. -/
structure TestResult where
  timeToConnection : Nat × Nat
  duration : Nat × Nat
deriving DecidableEq, Repr

/-- One probe of a pool, as seen by `testPool`: the result of
`pool.getConnection` (`none` = a connection was produced), the measured
time-to-connection, the result of the trivial `select version() as version`
query, and the total duration. -/
structure TestPoolInput where
  acquire : Option MysqlError
  timeToConnection : Nat × Nat
  queryError : Option MysqlError
  duration : Nat × Nat
deriving DecidableEq, Repr

/-- `testPool(logger, url, pool)`: rejects with the acquisition error if
`getConnection` fails; otherwise runs the trivial query, releases the
connection, and rejects with the query error or resolves the timings. -/
def testPool (i : TestPoolInput) : Except MysqlError TestResult :=
  match i.acquire with
  | some e => .error e
  | none =>
      match i.queryError with
      | some e => .error e
      | none => .ok { timeToConnection := i.timeToConnection, duration := i.duration }

/-- Modelled from the spec: the helper module `format-duration` is not among
the provided sources; the spec only says healthcheck durations are reported
"with formatted durations". Modelled as a plain rendering of the hrtime pair.
No claim depends on the rendered text. -/
def formatDuration (d : Nat × Nat) : String :=
  toString d.1 ++ "s " ++ toString d.2 ++ "ns"

/-- The slow-probe test `result.duration[0] > 0 || result.duration[1] / 10e5 > 50`.
(`10e5 = 1 000 000`; for an integer nanosecond count `n`, the JS float
comparison `n / 1e6 > 50` holds exactly when `n > 50 000 000`.) -/
def slowWarning (d : Nat × Nat) : Bool :=
  d.1 > 0 || d.2 > 50 * 1000000

/-- One per-pool healthcheck report. -/
structure HealthcheckResult where
  available : Bool
  url : String
  timeToConnection : Option String
  duration : Option String
  warning : Option String
  info : Option String
deriving DecidableEq, Repr

/-- `healthcheck(logger, url, pool)` from `mysql.ts`: a total function — every
failure of `testPool` is caught and converted into
`{ url, available: false, info: error.code }`; success reports
`available: true` with formatted durations and the slow-probe warning. -/
def healthcheck (url : String) (i : TestPoolInput) : HealthcheckResult :=
  match testPool i with
  | .ok r =>
      { available := true
        url := url
        timeToConnection := some (formatDuration r.timeToConnection)
        duration := some (formatDuration r.duration)
        warning := if slowWarning r.duration then some "Connection slower than 50ms" else none
        info := none }
  | .error e =>
      { available := false
        url := url
        timeToConnection := none
        duration := none
        warning := none
        info := some e.code }

/-- The composite report `{ master, replica }`. -/
structure HealthcheckResults where
  master : HealthcheckResult
  replica : HealthcheckResult
deriving DecidableEq, Repr

/-- `DatabasePool.healthcheck()`:
`resolve({ master: await healthcheck(..., this.master), replica: await healthcheck(..., this.replica) })`.
The two `await`s are sequential: the replica probe starts only after the
master probe has settled. A probe promise that never settles is modelled as
`none`; the composite then never settles either. The replica report is built
with `this.replicaUrl` (which the constructor derived from the master
configuration). -/
def databasePoolHealthcheck (cfg : ClusterConfig)
    (masterProbe replicaProbe : Option TestPoolInput) : Option HealthcheckResults :=
  match masterProbe with
  | none => none
  | some mi =>
      match replicaProbe with
      | none => none
      | some ri =>
          some { master := healthcheck (masterUrl cfg) mi
                 replica := healthcheck (replicaUrl cfg) ri }

/-! ## Shutdown (`DatabasePool.destroy`, `closePool`) -/

/-- `closePool(pool)`: promisifies `pool.end(cb)` — rejects with the callback
error, resolves otherwise. `none` models a callback with no error. -/
def closePool (endResult : Option MysqlError) : Except MysqlError Unit :=
  match endResult with
  | some e => .error e
  | none => .ok ()

/-- `Promise.all` over the two `closePool` promises: resolves only when both
resolve; rejects with the first rejection. Both underlying `pool.end` calls
have already been started when the array literal was built, so a rejection of
one never prevents the other closure from being attempted. In this
deterministic model a double failure surfaces the master's error. -/
def promiseAll2 (a b : Except MysqlError Unit) : Except MysqlError (Unit × Unit) :=
  match a, b with
  | .ok _, .ok _ => .ok ((), ())
  | .error e, _ => .error e
  | .ok _, .error e => .error e

/-- Result of `DatabasePool.destroy()`: which pools had `pool.end` invoked,
and the settlement of the `Promise.all`. -/
structure DestroyResult where
  endCalls : List Role
  outcome : Except MysqlError (Unit × Unit)

/-- `DatabasePool.destroy()`:
`Promise.all([closePool(this.master), closePool(this.replica)])`. Both
`closePool` calls run when the array is constructed, so both pools' `end` is
always invoked, whatever either outcome. -/
def destroy (masterEnd replicaEnd : Option MysqlError) : DestroyResult :=
  { endCalls := [Role.master, Role.replica]
    outcome := promiseAll2 (closePool masterEnd) (closePool replicaEnd) }

/-! ## Concrete fixtures used by counterexamples and witnesses -/

/-- A non-fatal, typically-retryable driver error. -/
def errLock : MysqlError :=
  { code := "ER_LOCK_DEADLOCK", fatal := false, sqlMessage := "Deadlock found when trying to get lock" }

/-- A fatal (connection-level) driver error. -/
def errFatal : MysqlError :=
  { code := "PROTOCOL_CONNECTION_LOST", fatal := true, sqlMessage := "Connection lost" }

/-- A connectivity failure as produced by a failed `pool.getConnection`. -/
def errDown : MysqlError :=
  { code := "ECONNREFUSED", fatal := true, sqlMessage := "connect ECONNREFUSED" }

/-- A query descriptor with a retry budget of one whose `isRetryable` always
answers true. -/
def qRetry : QueryDesc :=
  { description := "select ... from things", maxRetries := 1, isRetryable := fun _ => true }

/-- A probe of a reachable, fast pool. -/
def healthyProbe : TestPoolInput :=
  { acquire := none, timeToConnection := (0, 1200000), queryError := none, duration := (0, 2400000) }

/-- A probe of an unreachable pool: acquisition fails. -/
def downProbe : TestPoolInput :=
  { acquire := some errDown, timeToConnection := (0, 900000), queryError := none, duration := (0, 900000) }

/-- A concrete cluster configuration with distinct master and replica hosts. -/
def cfg0 : ClusterConfig :=
  { master := { host := "db-master", port := 3306, database := "app" }
    replica := { host := "db-replica", port := 3307, database := "app" } }

/-- The release handler can only log, issue the rollback statement, clear the
timer, or crash: it never emits a `returnedToPool` effect itself (in the
fatal-error path of `onError` it is invoked as a cleanup routine, bypassing
`connection.release()`). -/
theorem returnedToPool_not_mem_onRelease (x c : Nat) (s : MysqlState) :
    Effect.returnedToPool x ∉ (onRelease c s).effects := by
  unfold onRelease finishRelease rollbackStatementSync
  rcases hT : s.transactions c with _ | t <;>
    rcases hP : s.connectionPools c with _ | p <;>
      rcases hH : s.holdTimers c with _ | h <;> simp [hT, hP, hH]

/-- C1: at the very first retryable, non-fatal failure of a query with
`maxRetries = 1`, `query.ts`'s `onError` rejects the operation immediately
AND schedules a retry whose `retries` argument is still `undefined` — the
budget is never decremented, contradicting "exactly M retry attempts and
then rejects" and "the retry count decreases by one per attempt". The
`index.ts` path meanwhile always runs 3 retries (4 submissions), ignoring the
descriptor's `maxRetries = 1`. -/
theorem C1_onError_rejects_and_still_schedules_undecremented_retry :
    (onError qRetry errLock none 0 initialState).rejectedWith = some errLock ∧
    (onError qRetry errLock none 0 initialState).retryScheduled =
      some { backoff := none, retriesArg := none } ∧
    (runQuery qRetry.isRetryable (fun _ => some errLock) none).submissions = 4 ∧
    (runQuery qRetry.isRetryable (fun _ => some errLock) none).outcome = some errLock := by
  refine ⟨rfl, ?_, ?_, ?_⟩ <;>
    simp [onError, runQuery, runQueryGo, qRetry, errLock]

/-- C2 counterexample: in `index.ts`'s `runQuery` (retry budget M = 3), the
delay computed at the first failure — remaining retries r = 3 — is
`(4 - 3) ** 2 * 500 = 500` ms, not `(M - r) ** 2 * 500 = 0` ms as the claim's
formula demands; the successive delays of an all-retryable run are
`[500, 2000, 4500]`, not the `[0, 500, 2000]` the formula would give. -/
theorem C2_counterexample_backoff_formula_off_by_one :
    runQueryBackoff 3 = 500 ∧
    ((3 : Int) - 3) ^ 2 * 500 = 0 ∧
    runQueryBackoff 3 ≠ ((3 : Int) - 3) ^ 2 * 500 ∧
    (runQuery (fun _ => true) (fun _ => some errLock) none).delays = [500, 2000, 4500] ∧
    (runQuery (fun _ => true) (fun _ => some errLock) none).delays ≠ [0, 500, 2000] := by
  refine ⟨by decide, by decide, by decide, ?_, ?_⟩ <;>
    simp [runQuery, runQueryGo, runQueryBackoff, errLock]

/-- C2 amended: with the retry budget fixed at 3, `index.ts`'s `runQuery`
sleeps `(4 - r) ** 2 * 500` ms when the remaining-retries value is `r`, so an
all-retryable failure run sleeps 500, 2000 and 4500 ms; `query.ts`'s
`onError` computes `(maxRetries - retries) ** 2 * 500` from the raw `retries`
argument — when that argument is present the delay follows that formula, and
at the first failure (argument `undefined`) the backoff is `NaN` (scheduled
as a 0 ms timeout) and the argument is passed on un-decremented. -/
theorem C2_amended_backoff_delays (e : MysqlError) (isR : MysqlError → Bool)
    (q : QueryDesc) (r m : Nat) (h1 : e.fatal = false) (h2 : isR e = true)
    (h3 : q.isRetryable e = true) (h4 : q.maxRetries = m + 1) :
    (runQuery isR (fun _ => some e) none).delays = [500, 2000, 4500] ∧
    (onError q e (some (r + 1)) 0 initialState).retryScheduled =
      some { backoff := some (((q.maxRetries : Int) - ((r : Int) + 1)) ^ 2 * 500)
             retriesArg := some (r + 1) } ∧
    (onError q e none 0 initialState).retryScheduled =
      some { backoff := none, retriesArg := none } := by
  refine ⟨?_, ?_, ?_⟩
  · simp [runQuery, runQueryGo, runQueryBackoff, h1, h2]
  · simp [onError, h1, h3]
  · simp [onError, h1, h3, h4]

/-- C2 amended-claim witness at concrete inputs. -/
theorem C2_amended_backoff_delays_witness :
    (runQuery (fun _ => true) (fun _ => some errLock) none).delays = [500, 2000, 4500] ∧
    (onError qRetry errLock (some 1) 0 initialState).retryScheduled =
      some { backoff := some (((qRetry.maxRetries : Int) - ((0 : Int) + 1)) ^ 2 * 500)
             retriesArg := some 1 } ∧
    (onError qRetry errLock none 0 initialState).retryScheduled =
      some { backoff := none, retriesArg := none } :=
  C2_amended_backoff_delays errLock (fun _ => true) qRetry 0 0 rfl rfl rfl rfl

/-- C3: whenever an attempt fails with a fatal driver error — whatever the
registry state, the query's `isRetryable` predicate, and the remaining retry
budget — both execution paths reject immediately with that error, schedule no
retry, destroy the connection, and never return it to the pool. -/
theorem C3_fatal_destroys_and_rejects_immediately (q : QueryDesc) (e : MysqlError)
    (retries : Option Nat) (c : Nat) (s : MysqlState) (isR : MysqlError → Bool)
    (outcomes : Nat → Option MysqlError) (idx r : Nat)
    (hf : e.fatal = true) (hO : outcomes idx = some e) :
    (onError q e retries c s).rejectedWith = some e ∧
    (onError q e retries c s).retryScheduled = none ∧
    Effect.connectionDestroyed c ∈ (onError q e retries c s).effects ∧
    Effect.returnedToPool c ∉ (onError q e retries c s).effects ∧
    runQueryGo isR outcomes idx r =
      { submissions := 1, delays := [], outcome := some e, destroyed := true } := by
  refine ⟨?_, ?_, ?_, ?_, ?_⟩
  · simp [onError, hf]
  · simp [onError, hf]
  · simp [onError, hf]
  · simp [onError, hf, List.mem_cons, List.mem_append,
      returnedToPool_not_mem_onRelease c c s]
  · unfold runQueryGo
    simp [hO, hf]

/-- C3 witness: a fatal error with a permissive `isRetryable` and a full
budget still destroys and rejects at once. -/
theorem C3_fatal_destroys_and_rejects_immediately_witness :
    (onError qRetry errFatal (some 3) 0 initialState).rejectedWith = some errFatal ∧
    (onError qRetry errFatal (some 3) 0 initialState).retryScheduled = none ∧
    Effect.connectionDestroyed 0 ∈ (onError qRetry errFatal (some 3) 0 initialState).effects ∧
    Effect.returnedToPool 0 ∉ (onError qRetry errFatal (some 3) 0 initialState).effects ∧
    runQueryGo qRetry.isRetryable (fun _ => some errFatal) 0 3 =
      { submissions := 1, delays := [], outcome := some errFatal, destroyed := true } :=
  C3_fatal_destroys_and_rejects_immediately qRetry errFatal (some 3) 0 initialState
    qRetry.isRetryable (fun _ => some errFatal) 0 3 rfl rfl

/-- C4 counterexample: register a connection (connection event, then acquire)
and release it; the registry still answers the role lookup with
`some master` — the entry is not removed by the release path, contradicting
"every subsequent registry lookup on that connection returns absent". -/
theorem C4_counterexample_role_survives_release :
    getConnectionRole 0
        (onRelease 0 (onAcquire 0 7 (onConnection 0 Role.master 5 initialState).1)).state =
      some Role.master ∧
    ¬ getConnectionRole 0
        (onRelease 0 (onAcquire 0 7 (onConnection 0 Role.master 5 initialState).1)).state =
      none := by
  constructor <;> decide

/-- C4 amended: releasing a registered connection removes only the checkout
timer; the role and owning-pool entries survive the release (the `WeakMap`
entries are left to garbage collection), and with no transaction open the
transaction entry is untouched as well. -/
theorem C4_amended_release_clears_only_timer (c pid timer : Nat) (role : Role)
    (s : MysqlState) (h : s.transactions c = none) :
    (onRelease c (onAcquire c timer (onConnection c role pid s).1)).state.holdTimers c = none ∧
    (onRelease c (onAcquire c timer (onConnection c role pid s).1)).state.connectionRoles c
      = some role ∧
    (onRelease c (onAcquire c timer (onConnection c role pid s).1)).state.connectionPools c
      = some pid ∧
    (onRelease c (onAcquire c timer (onConnection c role pid s).1)).state.transactions c
      = none := by
  refine ⟨?_, ?_, ?_, ?_⟩ <;>
    simp [onRelease, onAcquire, onConnection, finishRelease, updateMap, h]

/-- C4 amended-claim witness at a concrete connection. -/
theorem C4_amended_release_clears_only_timer_witness :
    (onRelease 0 (onAcquire 0 7 (onConnection 0 Role.replica 5 initialState).1)).state.holdTimers 0
      = none ∧
    (onRelease 0 (onAcquire 0 7 (onConnection 0 Role.replica 5 initialState).1)).state.connectionRoles 0
      = some Role.replica ∧
    (onRelease 0 (onAcquire 0 7 (onConnection 0 Role.replica 5 initialState).1)).state.connectionPools 0
      = some 5 ∧
    (onRelease 0 (onAcquire 0 7 (onConnection 0 Role.replica 5 initialState).1)).state.transactions 0
      = none :=
  C4_amended_release_clears_only_timer 0 5 7 Role.replica initialState rfl

/-- C5 counterexample: `startTransaction` whose `start transaction read only`
statement fails with a driver error rejects with that error — but the
transaction entry for the acquired connection reads `some ReadOnly`, not the
absent value the claim demands. -/
theorem C5_counterexample_metadata_set_despite_failed_start :
    (startTransaction TransactionType.readOnly (.ok 0) (some errLock) initialState).outcome
      = .error errLock ∧
    getTransactionType 0
        (startTransaction TransactionType.readOnly (.ok 0) (some errLock) initialState).state
      = some TransactionType.readOnly := by
  constructor <;> rfl

/-- C5 amended: `startTransaction` records the transaction type BEFORE
issuing the statement; when the statement fails it logs one error-level
diagnostic and rejects with the driver error, and the just-set transaction
entry remains in place. -/
theorem C5_amended_failed_start_leaves_metadata_set (t : TransactionType) (c : Nat)
    (e : MysqlError) (s : MysqlState) :
    (startTransaction t (.ok c) (some e) s).outcome = .error e ∧
    getTransactionType c (startTransaction t (.ok c) (some e) s).state = some t ∧
    errorLogCount (startTransaction t (.ok c) (some e) s).effects = 1 := by
  refine ⟨rfl, ?_, ?_⟩ <;>
    simp [startTransaction, setTransactionType, getTransactionType, updateMap, errorLogCount]

/-- C6: with no transaction recorded, `commitTransaction` and
`rollbackTransaction` reject with the no-open-transaction error and hand no
statement to the driver; with a transaction open, exactly the corresponding
`commit`/`rollback` statement is issued and the transaction entry is cleared
if and only if the driver reports success. -/
theorem C6_commit_rollback_misuse_and_clearing (c : Nat) (s : MysqlState)
    (res : Option MysqlError) (t : TransactionType) :
    (getTransactionType c s = none →
      (commitTransaction c s res).outcome =
        .error (.noOpenTransaction "Cannot commit transaction; none is running") ∧
      statementsIssued (commitTransaction c s res).effects = [] ∧
      (rollbackTransaction c s res).outcome =
        .error (.noOpenTransaction "Cannot rollback transaction; none is running") ∧
      statementsIssued (rollbackTransaction c s res).effects = []) ∧
    (getTransactionType c s = some t →
      statementsIssued (commitTransaction c s res).effects = [(c, "commit")] ∧
      statementsIssued (rollbackTransaction c s res).effects = [(c, "rollback")] ∧
      (getTransactionType c (commitTransaction c s res).state = none ↔ res = none) ∧
      (getTransactionType c (rollbackTransaction c s res).state = none ↔ res = none)) := by
  constructor
  · intro h
    simp only [getTransactionType] at h
    refine ⟨?_, ?_, ?_, ?_⟩ <;>
      simp [commitTransaction, rollbackTransaction, rollbackStatementSync,
        getTransactionType, h, statementsIssued]
  · intro h
    simp only [getTransactionType] at h
    rcases res with _ | e <;>
      refine ⟨?_, ?_, ?_, ?_⟩ <;>
        simp [commitTransaction, rollbackTransaction, rollbackStatementSync,
          getTransactionType, clearTransactionType, updateMap, h, statementsIssued]

/-- C6 witness: the misuse branch on the empty registry, and the open branch
(driver failure leaves the entry, driver success clears it) on a registry
with an open read-only transaction. -/
theorem C6_commit_rollback_misuse_and_clearing_witness :
    ((commitTransaction 0 initialState none).outcome =
        .error (.noOpenTransaction "Cannot commit transaction; none is running") ∧
      statementsIssued (commitTransaction 0 initialState none).effects = [] ∧
      (rollbackTransaction 0 initialState none).outcome =
        .error (.noOpenTransaction "Cannot rollback transaction; none is running") ∧
      statementsIssued (rollbackTransaction 0 initialState none).effects = []) ∧
    (statementsIssued
        (commitTransaction 0 (setTransactionType 0 .readOnly initialState) (some errLock)).effects
        = [(0, "commit")] ∧
      statementsIssued
        (rollbackTransaction 0 (setTransactionType 0 .readOnly initialState) (some errLock)).effects
        = [(0, "rollback")] ∧
      (getTransactionType 0
          (commitTransaction 0 (setTransactionType 0 .readOnly initialState) (some errLock)).state
          = none ↔ (some errLock : Option MysqlError) = none) ∧
      (getTransactionType 0
          (rollbackTransaction 0 (setTransactionType 0 .readOnly initialState) (some errLock)).state
          = none ↔ (some errLock : Option MysqlError) = none)) :=
  ⟨(C6_commit_rollback_misuse_and_clearing 0 initialState none .readOnly).1 rfl,
   (C6_commit_rollback_misuse_and_clearing 0
      (setTransactionType 0 .readOnly initialState) (some errLock) .readOnly).2 rfl⟩

/-- C7: releasing a connection that is registered to a pool and still has an
open transaction issues exactly one `rollback` statement on that connection
and logs exactly one error-level diagnostic, and the error log, the rollback
statement and its debug log all precede the "connection released" step of the
release; the handler completes normally (the release is never silent). -/
theorem C7_release_with_open_transaction_forces_rollback (c pid : Nat)
    (t : TransactionType) (s : MysqlState)
    (hTxn : s.transactions c = some t) (hPool : s.connectionPools c = some pid) :
    statementsIssued (onRelease c s).effects = [(c, "rollback")] ∧
    errorLogCount (onRelease c s).effects = 1 ∧
    (onRelease c s).effects.take 3 =
      [Effect.logged .error
        "A connection was released that still had an open transaction; Forcing rollback",
       Effect.logged .debug "Rolling back MySQL transaction",
       Effect.statementIssued c "rollback"] ∧
    (onRelease c s).crashed = false := by
  refine ⟨?_, ?_, ?_, ?_⟩ <;>
    rcases hH : s.holdTimers c with _ | h <;>
      simp [onRelease, finishRelease, rollbackStatementSync, statementsIssued,
        errorLogCount, hTxn, hPool, hH]

/-- C7 witness: a registered master-pool connection with an open read-write
transaction, released with its checkout timer armed. -/
theorem C7_release_with_open_transaction_forces_rollback_witness :
    statementsIssued
        (onRelease 0 (setTransactionType 0 .readWrite
          (onAcquire 0 7 (onConnection 0 Role.master 5 initialState).1))).effects
      = [(0, "rollback")] ∧
    errorLogCount
        (onRelease 0 (setTransactionType 0 .readWrite
          (onAcquire 0 7 (onConnection 0 Role.master 5 initialState).1))).effects
      = 1 ∧
    (onRelease 0 (setTransactionType 0 .readWrite
        (onAcquire 0 7 (onConnection 0 Role.master 5 initialState).1))).effects.take 3 =
      [Effect.logged .error
        "A connection was released that still had an open transaction; Forcing rollback",
       Effect.logged .debug "Rolling back MySQL transaction",
       Effect.statementIssued 0 "rollback"] ∧
    (onRelease 0 (setTransactionType 0 .readWrite
        (onAcquire 0 7 (onConnection 0 Role.master 5 initialState).1))).crashed = false :=
  C7_release_with_open_transaction_forces_rollback 0 5 .readWrite
    (setTransactionType 0 .readWrite
      (onAcquire 0 7 (onConnection 0 Role.master 5 initialState).1)) rfl rfl

/-- C8 counterexample: the composite healthcheck awaits the master probe
before starting the replica probe, so the probes do block each other — with a
master probe that never settles and a perfectly healthy replica pool, the
composite never reports the replica's `available: true` result. -/
theorem C8_counterexample_master_probe_blocks_replica :
    databasePoolHealthcheck cfg0 none (some healthyProbe) = none ∧
    (healthcheck (replicaUrl cfg0) healthyProbe).available = true := by
  constructor <;> rfl

/-- C8 amended: each per-pool probe never throws — any `testPool` failure is
reported as `available: false` with the failure's code in `info`, and success
as `available: true`; once both probes settle, each pool's report is computed
from its own probe alone. The probes are sequential, however: the replica
probe starts only after the master probe settles, so an unsettled master
probe withholds the replica's report. -/
theorem C8_amended_probe_reports_and_sequencing (cfg : ClusterConfig)
    (mi ri i j : TestPoolInput) (url : String) (e : MysqlError) (r : TestResult)
    (hFail : testPool i = .error e) (hOk : testPool j = .ok r) :
    databasePoolHealthcheck cfg (some mi) (some ri) =
      some { master := healthcheck (masterUrl cfg) mi
             replica := healthcheck (replicaUrl cfg) ri } ∧
    (healthcheck url i).available = false ∧
    (healthcheck url i).info = some e.code ∧
    (healthcheck url j).available = true ∧
    databasePoolHealthcheck cfg none (some ri) = none := by
  refine ⟨rfl, ?_, ?_, ?_, rfl⟩ <;> simp [healthcheck, hFail, hOk]

/-- C8 amended-claim witness: a failing probe (`ECONNREFUSED`) and a healthy
probe. -/
theorem C8_amended_probe_reports_and_sequencing_witness :
    databasePoolHealthcheck cfg0 (some downProbe) (some healthyProbe) =
      some { master := healthcheck (masterUrl cfg0) downProbe
             replica := healthcheck (replicaUrl cfg0) healthyProbe } ∧
    (healthcheck (masterUrl cfg0) downProbe).available = false ∧
    (healthcheck (masterUrl cfg0) downProbe).info = some errDown.code ∧
    (healthcheck (replicaUrl cfg0) healthyProbe).available = true ∧
    databasePoolHealthcheck cfg0 none (some healthyProbe) = none :=
  C8_amended_probe_reports_and_sequencing cfg0 downProbe healthyProbe downProbe healthyProbe
    (masterUrl cfg0) errDown
    { timeToConnection := healthyProbe.timeToConnection, duration := healthyProbe.duration }
    rfl rfl

/-- C9: `destroy()` invokes `pool.end` on both the master and the replica
pool whatever the outcomes; it resolves exactly when both closures succeed,
and when either closure fails the rejection surfaces that pool's error. -/
theorem C9_destroy_closes_both_pools (mEnd rEnd : Option MysqlError) (e : MysqlError) :
    (destroy mEnd rEnd).endCalls = [Role.master, Role.replica] ∧
    ((destroy mEnd rEnd).outcome = .ok ((), ()) ↔ (mEnd = none ∧ rEnd = none)) ∧
    (mEnd = some e → (destroy mEnd rEnd).outcome = .error e) ∧
    (mEnd = none → rEnd = some e → (destroy mEnd rEnd).outcome = .error e) := by
  rcases mEnd with _ | me <;> rcases rEnd with _ | re <;>
    refine ⟨rfl, ?_, ?_, ?_⟩ <;>
      simp [destroy, promiseAll2, closePool]

/-- C9 witness: both pools close cleanly; and a failing replica close with a
clean master close surfaces the replica's error while both `end` calls were
made. -/
theorem C9_destroy_closes_both_pools_witness :
    ((destroy none none).endCalls = [Role.master, Role.replica] ∧
      (destroy none none).outcome = .ok ((), ())) ∧
    ((destroy none (some errDown)).endCalls = [Role.master, Role.replica] ∧
      (destroy none (some errDown)).outcome = .error errDown) :=
  ⟨⟨(C9_destroy_closes_both_pools none none errDown).1,
    ((C9_destroy_closes_both_pools none none errDown).2.1).mpr ⟨rfl, rfl⟩⟩,
   ⟨(C9_destroy_closes_both_pools none (some errDown) errDown).1,
    (C9_destroy_closes_both_pools none (some errDown) errDown).2.2.2 rfl rfl⟩⟩

/-- C10: the constructor derives both public URLs from the master pool
configuration, so `replicaUrl` equals `masterUrl` for every cluster
configuration — whatever replica configuration is supplied — and the
composite healthcheck therefore reports the replica pool's probe under the
master's URL. -/
theorem C10_replica_url_equals_master_url (cfg : ClusterConfig) (mi ri : TestPoolInput) :
    replicaUrl cfg = masterUrl cfg ∧
    (databasePoolHealthcheck cfg (some mi) (some ri)).map (fun res => res.replica.url) =
      some (masterUrl cfg) := by
  refine ⟨rfl, ?_⟩
  simp [databasePoolHealthcheck, healthcheck, replicaUrl, masterUrl]
  rcases testPool ri with _ | tr <;> rfl

end VivaDB
